import Mathlib

/-!
Verification of the SP3 downloader's core decision logic (`sp3exe.py`),
shallowly embedded in Lean 4.  Pure functions of the source become Lean
functions; the HTTP probe, the external decompressors and the filesystem are
modelled as explicit oracle parameters, so every definition is executable.
-/

namespace SP3

/-- The three IGS product classes handled by the downloader (the source uses
the strings `'final'`, `'rapid'`, `'ultra_rapid'`). -/
inductive ProductType where
  | final
  | rapid
  | ultra_rapid
deriving DecidableEq, Repr

/-- Embeds `self.availability_thresholds` (sp3exe.py lines 116-120):
`final = 12*24`, `rapid = 24`, `ultra_rapid = 3`, in hours. -/
def availability_thresholds : ProductType → ℚ
  | .final => 12 * 24
  | .rapid => 24
  | .ultra_rapid => 3

/-- Result record of `analyze_data_availability`: the computed elapsed hours,
the chosen optimal product (`None` in Python becomes `none`) and the
`data_unavailable` flag. -/
structure AvailabilityAnalysis where
  hours_elapsed : ℚ
  optimal_product : Option ProductType
  data_unavailable : Bool
deriving DecidableEq, Repr

/-- Embeds `SP3CombinedDownloader.analyze_data_availability` (lines 179-209).
Timestamps are rationals counting seconds (the embedding of `datetime`
subtraction plus `total_seconds() / 3600`, which may be fractional); the
threshold comparisons are applied in descending order exactly as in the
source. -/
def analyze_data_availability (target_date now : ℚ) : AvailabilityAnalysis :=
  let hours_elapsed : ℚ := (now - target_date) / 3600
  if availability_thresholds .final ≤ hours_elapsed then
    ⟨hours_elapsed, some .final, false⟩
  else if availability_thresholds .rapid ≤ hours_elapsed then
    ⟨hours_elapsed, some .rapid, false⟩
  else if availability_thresholds .ultra_rapid ≤ hours_elapsed then
    ⟨hours_elapsed, some .ultra_rapid, false⟩
  else
    ⟨hours_elapsed, none, true⟩

/-- Rank of a classification result in the availability order used by the
spec: no class < UltraRapid < Rapid < Final. -/
def availabilityRank : Option ProductType → ℕ
  | none => 0
  | some .ultra_rapid => 1
  | some .rapid => 2
  | some .final => 3

/-- A proleptic-Gregorian calendar date, the embedding of Python's
`datetime.date` part (time-of-day is not used by the generator). -/
structure Date where
  year : ℕ
  month : ℕ
  day : ℕ
deriving DecidableEq, Repr

/-- Gregorian leap-year rule, as in Python's `calendar`/`datetime` modules. -/
def isLeap (y : ℕ) : Bool :=
  y % 4 == 0 && (y % 100 != 0 || y % 400 == 0)

/-- Number of days in a month, as in Python's `datetime`. -/
def daysInMonth (y m : ℕ) : ℕ :=
  match m with
  | 2 => if isLeap y then 29 else 28
  | 4 | 6 | 9 | 11 => 30
  | _ => 31

/-- Days in the year before the first of month `m` (Python's
`datetime._days_before_month`). -/
def daysBeforeMonth (y m : ℕ) : ℕ :=
  let base :=
    match m with
    | 1 => 0 | 2 => 31 | 3 => 59 | 4 => 90 | 5 => 120 | 6 => 151
    | 7 => 181 | 8 => 212 | 9 => 243 | 10 => 273 | 11 => 304 | _ => 334
  if 2 < m && isLeap y then base + 1 else base

/-- Day-of-year 1..366, the embedding of `date_obj.timetuple().tm_yday`. -/
def dayOfYear (d : Date) : ℕ :=
  daysBeforeMonth d.year d.month + d.day

/-- Days in all years strictly before year `y` (Python's
`datetime._days_before_year`). -/
def daysBeforeYear (y : ℕ) : ℕ :=
  (y - 1) * 365 + (y - 1) / 4 - (y - 1) / 100 + (y - 1) / 400

/-- Python's `date.toordinal()`: day number with 0001-01-01 = 1. -/
def toOrdinal (d : Date) : ℕ :=
  daysBeforeYear d.year + dayOfYear d

/-- Ordinal of the GPS epoch 1980-01-06 (`gps_epoch`, sp3exe.py line 158-160). -/
def gpsEpochOrdinal : ℕ := toOrdinal ⟨1980, 1, 6⟩

/-- Whole days from the GPS epoch to `d`: the embedding of
`(date - gps_start).days` for midnight datetimes (lines 172-173). -/
def daysSinceGpsEpoch (d : Date) : ℤ :=
  (toOrdinal d : ℤ) - (gpsEpochOrdinal : ℤ)

/-- `gps_week = delta.days // 7` (line 174).  Python's `//` on ints is floor
division, which `Int.fdiv` embeds exactly. -/
def gpsWeekOf (d : Date) : ℤ :=
  (daysSinceGpsEpoch d).fdiv 7

/-- `day_of_week = delta.days % 7` (line 175).  Python's `%` on ints is the
floor-division remainder, which `Int.fmod` embeds exactly. -/
def dayOfWeekOf (d : Date) : ℤ :=
  (daysSinceGpsEpoch d).fmod 7

/-- Embeds `date_to_gps_week` (lines 162-177): the `(gps_week, day_of_week)`
pair (the third returned component, the parsed date itself, is the input
here since the embedding works on already-parsed dates). -/
def date_to_gps_week (d : Date) : ℤ × ℤ :=
  (gpsWeekOf d, dayOfWeekOf d)

/-- Embeds `date_obj - timedelta(days=1)`: the previous calendar day. -/
def predDate (d : Date) : Date :=
  if 1 < d.day then ⟨d.year, d.month, d.day - 1⟩
  else if 1 < d.month then ⟨d.year, d.month - 1, daysInMonth d.year (d.month - 1)⟩
  else ⟨d.year - 1, 12, 31⟩

/-- `self.time_intervals = ['01S', '30S', '05M', '15M']` (line 123), in
priority order. -/
def time_intervals : List String := ["01S", "30S", "05M", "15M"]

/-- One generated filename, kept structured so that ordering properties can
be stated on its fields; `render` below recovers the exact string the source
builds with its f-strings.
`modern code year doy hh span interval` is
`{code}_{year}{doy:03d}{hh:02d}00_{span}_{interval}_ORB.SP3.gz`
(the daily products pass `hh = 0`, giving the literal `0000` of the source);
`legacy center week dow hour?` is `{center}{week:04d}{dow}.sp3.Z`,
with `_{hour:02d}` inserted before the extension when an hour is present. -/
inductive Candidate where
  | modern (code : String) (year doy hh : ℕ) (span interval : String)
  | legacy (center : String) (gpsWeek dayOfWeek : ℤ) (hour : Option ℕ)
deriving DecidableEq, Repr

/-- Left-pad the decimal digits of `n` with zeros to width `w` (Python's
`{n:0wd}` for nonnegative `n`). -/
def zpad (w n : ℕ) : String :=
  let s := toString n
  String.mk (List.replicate (w - s.length) '0') ++ s

/-- Python's `{i:0wd}` for an integer: sign first, digits padded so the whole
field has width `w` (only nonnegative weeks occur in the claims). -/
def zpadInt (w : ℕ) (i : ℤ) : String :=
  if i < 0 then "-" ++ zpad (w - 1) i.natAbs else zpad w i.toNat

/-- The exact filename string of a structured candidate, matching the
f-strings of `generate_combined_sp3_filenames` character for character. -/
def render : Candidate → String
  | .modern code year doy hh span interval =>
      code ++ "_" ++ toString year ++ zpad 3 doy ++ zpad 2 hh ++ "00_" ++
        span ++ "_" ++ interval ++ "_ORB.SP3.gz"
  | .legacy center gpsWeek dayOfWeek hour =>
      center ++ zpadInt 4 gpsWeek ++ toString dayOfWeek ++
        (match hour with
         | some h => "_" ++ zpad 2 h
         | none => "") ++ ".sp3.Z"

/-- Return record of `generate_combined_sp3_filenames`:
`(filenames, gps_week, use_new_format)`. -/
structure GenResult where
  filenames : List Candidate
  gps_week : ℤ
  use_new_format : Bool
deriving DecidableEq, Repr

/-- Embeds `generate_combined_sp3_filenames` (lines 211-349).  `now_date` and
`now_hour` embed `datetime.now()` (its date for the `date_obj.date() ==
now.date()` tests, its `.hour` for the 3-hour-delay filters); the Python
`h <= current_hour - 3` over possibly negative ints is embedded as
`h + 3 ≤ now_hour` over ℕ, which is equivalent.  The modern-era "yesterday"
block reuses the target's `year` with yesterday's day-of-year exactly as the
source does (line 266-268). -/
def generate_combined_sp3_filenames (target_date now_date : Date)
    (now_hour : ℕ) (product_type : ProductType) : GenResult :=
  let gps_week := gpsWeekOf target_date
  let day_of_week := dayOfWeekOf target_date
  let year := target_date.year
  let doy := dayOfYear target_date
  let use_new_format : Bool := decide (2238 ≤ gps_week)
  let is_today : Bool := decide (target_date = now_date)
  let filenames : List Candidate :=
    if use_new_format then
      match product_type with
      | .final =>
          time_intervals.flatMap fun interval =>
            [.modern "IGS0OPSFIN" year doy 0 "01D" interval,
             .modern "COD0MGXFIN" year doy 0 "01D" interval,
             .modern "GFZ0MGXFIN" year doy 0 "01D" interval,
             .modern "WUM0MGXFIN" year doy 0 "01D" interval]
      | .rapid =>
          time_intervals.flatMap fun interval =>
            [.modern "IGS0OPSRAP" year doy 0 "01D" interval,
             .modern "COD0OPSRAP" year doy 0 "01D" interval,
             .modern "GFZ0OPSRAP" year doy 0 "01D" interval,
             .modern "JPL0OPSRAP" year doy 0 "01D" interval,
             .modern "IGR0OPSRAP" year doy 0 "01D" interval]
      | .ultra_rapid =>
          let available_hours : List ℕ :=
            if is_today then [18, 12, 6, 0].filter (fun h => h + 3 ≤ now_hour)
            else [18, 12, 6, 0]
          let yesterday := predDate target_date
          let yesterday_doy := dayOfYear yesterday
          let yesterday_block : List Candidate :=
            if is_today && available_hours.isEmpty then
              [18, 12].flatMap fun h =>
                time_intervals.flatMap fun interval =>
                  [.modern "IGS0OPSULT" year yesterday_doy h "02D" interval,
                   .modern "COD0OPSULT" year yesterday_doy h "02D" interval,
                   .modern "GFZ0OPSULT" year yesterday_doy h "02D" interval]
            else []
          let hour_block : List Candidate :=
            available_hours.flatMap fun hour =>
              time_intervals.flatMap fun interval =>
                [.modern "IGS0OPSULT" year doy hour "02D" interval,
                 .modern "COD0OPSULT" year doy hour "02D" interval,
                 .modern "GFZ0OPSULT" year doy hour "02D" interval,
                 .modern "JPL0OPSULT" year doy hour "02D" interval,
                 .modern "IGS0OPSULT" year doy hour "01D" interval,
                 .modern "COD0OPSULT" year doy hour "01D" interval,
                 .modern "GFZ0OPSULT" year doy hour "01D" interval]
          let legacy_hours : List ℕ :=
            if is_today then
              [21, 18, 15, 12, 9, 6, 3, 0].filter (fun h => h + 3 ≤ now_hour)
            else [21, 18, 15, 12, 9, 6, 3, 0]
          let gps_week_y := gpsWeekOf yesterday
          let day_of_week_y := dayOfWeekOf yesterday
          let legacy_yesterday_block : List Candidate :=
            if is_today && legacy_hours.isEmpty then
              [21, 18, 15, 12].map fun h =>
                .legacy "igu" gps_week_y day_of_week_y (some h)
            else []
          let legacy_block : List Candidate :=
            legacy_hours.map fun hour =>
              .legacy "igu" gps_week day_of_week (some hour)
          yesterday_block ++ hour_block ++ legacy_yesterday_block ++ legacy_block
    else
      match product_type with
      | .final =>
          [.legacy "cod" gps_week day_of_week none,
           .legacy "gfz" gps_week day_of_week none,
           .legacy "whu" gps_week day_of_week none,
           .legacy "igs" gps_week day_of_week none]
      | .rapid =>
          [.legacy "codr" gps_week day_of_week none,
           .legacy "gfzr" gps_week day_of_week none,
           .legacy "jplr" gps_week day_of_week none,
           .legacy "igr" gps_week day_of_week none]
      | .ultra_rapid =>
          let igu_today : List Candidate :=
            if is_today then
              ([21, 18, 15, 12, 9, 6, 3, 0].filter (fun h => h + 3 ≤ now_hour)).map
                fun hour => .legacy "igu" gps_week day_of_week (some hour)
            else
              [21, 18, 15, 12, 9, 6, 3, 0].map
                fun hour => .legacy "igu" gps_week day_of_week (some hour)
          let yesterday := predDate target_date
          let gps_week_y := gpsWeekOf yesterday
          let day_of_week_y := dayOfWeekOf yesterday
          let igu_yesterday : List Candidate :=
            if is_today && igu_today.isEmpty then
              [21, 18].map fun hour =>
                .legacy "igu" gps_week_y day_of_week_y (some hour)
            else []
          let other_centers : List Candidate :=
            [18, 12, 6, 0].flatMap fun hour =>
              [.legacy "codu" gps_week day_of_week (some hour),
               .legacy "gfzu" gps_week day_of_week (some hour)]
          igu_today ++ igu_yesterday ++ other_centers
  ⟨filenames, gps_week, use_new_format⟩

/-- Outcome of one `HEAD` probe of a candidate URL, as consumed by
`download_product_type` (lines 422-458): `ok r` is status 200 together with
the result `r` of the subsequent `download_file` call (which the source
returns directly, even when it is `None`); `notFound` is 404 (continue);
`authRequired` is 401 (break); `otherStatus` is any other status code
(continue); `netError` is a raised request exception (continue). -/
inductive ProbeResult where
  | ok (download_result : Option String)
  | notFound
  | authRequired
  | otherStatus (code : ℕ)
  | netError
deriving DecidableEq, Repr

/-- Embeds the candidate-probing loop of `download_product_type`
(lines 422-461), instrumented with the list of candidates actually probed
(second component) so that abort behaviour can be stated.  `probe` is the
oracle for `self.session.head` plus `download_file`.  A 200 returns the
download result and stops; a 401 breaks out of the loop, after which the
source falls through to `return None`; 404, other statuses and network
errors continue with the next candidate; an exhausted list yields `None`. -/
def download_product_type_run (probe : String → ProbeResult) :
    List String → Option String × List String
  | [] => (none, [])
  | filename :: rest =>
    match probe filename with
    | .ok r => (r, [filename])
    | .authRequired => (none, [filename])
    | .notFound | .otherStatus _ | .netError =>
        let res := download_product_type_run probe rest
        (res.1, filename :: res.2)

/-- Embeds `smart_download_sp3` (lines 351-395), with the per-class download
`dl` (the source's `self.download_product_type(target_date, ·)`) as an
oracle parameter and timestamps as in `analyze_data_availability`.
`None` from the source becomes `none`; the printed messages distinguishing
"no product available" from "all classes failed" are not part of the
returned value in the source either. -/
def smart_download_sp3 (dl : ProductType → Option String)
    (target_date now : ℚ) : Option String :=
  let availability := analyze_data_availability target_date now
  if availability.data_unavailable then none
  else
    match availability.optimal_product with
    | none => none
    | some optimal_product =>
      match dl optimal_product with
      | some result => some result
      | none =>
        match optimal_product with
        | .ultra_rapid =>
          match dl .rapid with
          | some result => some result
          | none => dl .final
        | .rapid => dl .final
        | .final => none

/-- The same control flow as `smart_download_sp3`, recording which product
classes it calls `download_product_type` on, in order. -/
def smart_download_attempts (dl : ProductType → Option String)
    (target_date now : ℚ) : List ProductType :=
  let availability := analyze_data_availability target_date now
  if availability.data_unavailable then []
  else
    match availability.optimal_product with
    | none => []
    | some optimal_product =>
      match dl optimal_product with
      | some _ => [optimal_product]
      | none =>
        match optimal_product with
        | .ultra_rapid =>
          match dl .rapid with
          | some _ => [.ultra_rapid, .rapid]
          | none => [.ultra_rapid, .rapid, .final]
        | .rapid => [.rapid, .final]
        | .final => [.final]

/-- The degrade chain of `smart_download_sp3`, starting from the optimal
class: UltraRapid → Rapid → Final; Rapid → Final; Final alone. -/
def fallback_chain : ProductType → List ProductType
  | .ultra_rapid => [.ultra_rapid, .rapid, .final]
  | .rapid => [.rapid, .final]
  | .final => [.final]

/-- The whole download operation: `smart_download_sp3` composed with the
probing loop, with the candidate lists per class (`cand`, the source's call
to `generate_combined_sp3_filenames`) and the probe oracle as parameters. -/
def smart_download_full (probe : String → ProbeResult)
    (cand : ProductType → List String) (target_date now : ℚ) : Option String :=
  smart_download_sp3 (fun pt => (download_product_type_run probe (cand pt)).1)
    target_date now

/-- Product classes attempted by the whole download operation. -/
def smart_download_full_attempts (probe : String → ProbeResult)
    (cand : ProductType → List String) (target_date now : ℚ) : List ProductType :=
  smart_download_attempts (fun pt => (download_product_type_run probe (cand pt)).1)
    target_date now

/-- Python's `Path.with_suffix('')` on a file name: drop the last
dot-extension when there is one. -/
def with_suffix_empty (p : String) : String :=
  let cs := p.toList
  if cs.contains '.' then
    String.mk ((cs.reverse.dropWhile (fun c => c != '.')).drop 1).reverse
  else p

/-- Embeds `decompress_file` (lines 492-514), the `.gz` path.  `gzip_ok`
stands for the `gzip.open`/`read`/`write` block completing without raising;
`auto_cleanup` is `self.config.get('auto_cleanup')` (`none` embeds Python's
`None`, and `None or auto_cleanup` means cleanup defaults to on).  The
returned pair is the path the function returns together with whether the
compressed artifact was unlinked.  On any exception the source logs and
returns `str(compressed_path)`, with no unlink having happened. -/
def decompress_file (gzip_ok : Bool) (auto_cleanup : Option Bool)
    (compressed_path : String) : String × Bool :=
  if gzip_ok then
    let cleanup :=
      match auto_cleanup with
      | none => true
      | some b => b
    (with_suffix_empty compressed_path, cleanup)
  else
    (compressed_path, false)

/-- Embeds `decompress_unix_z` (lines 516-538), the `.Z` path.  `run_result`
is the outcome of `subprocess.run(['uncompress', ...])`: `none` when the call
raises (tool missing, timeout), `some (returncode, exists_after)` when it
returns, with `exists_after` standing for `decompressed_path.exists()`.
The decompressed path is returned only when the return code is zero and the
decompressed file exists; in every other case the compressed path itself is
returned (the source never deletes the compressed artifact here). -/
def decompress_unix_z (run_result : Option (ℤ × Bool))
    (compressed_path : String) : String :=
  match run_result with
  | some (returncode, exists_after) =>
      if returncode = 0 ∧ exists_after = true then with_suffix_empty compressed_path
      else compressed_path
  | none => compressed_path

/-- Result record of the SP3 header scan of `analyze_sp3_file`: the distinct
satellite count, the constellation letters found, and the returned boolean. -/
structure SP3Analysis where
  total_satellites : ℕ
  constellations : Finset Char
  ok : Bool
deriving DecidableEq

/-- The fixed-width 3-character tokens of a satellite section: the
`while pos < len: ... pos += 3` loop of lines 571-582 reads consecutive
3-character slices and ignores a trailing fragment shorter than 3
(`if pos + 2 < len(sat_section)`). -/
def satTokens : List Char → List (Char × Char × Char)
  | c0 :: c1 :: c2 :: rest => (c0, c1, c2) :: satTokens rest
  | _ => []

/-- Whether a 3-character token is a satellite identifier:
`sat_id[0].isalpha() and sat_id[1:].isdigit()` (line 575; the length-3 test
holds by construction for these tokens). -/
def isSatToken : Char × Char × Char → Bool
  | (c0, c1, c2) => c0.isAlpha && c1.isDigit && c2.isDigit

/-- Python's `str.strip()`: remove whitespace from both ends. -/
def pyStrip (cs : List Char) : List Char :=
  ((cs.dropWhile Char.isWhitespace).reverse.dropWhile Char.isWhitespace).reverse

/-- Satellite identifiers of one file line: lines starting with `+` have
`line[9:].strip()` scanned for satellite tokens (lines 569-582); Python
slices strings by code points, which `List.drop` on the character list
embeds. -/
def lineSatellites (line : String) : List (Char × Char × Char) :=
  match line.toList with
  | '+' :: _ => (satTokens (pyStrip (line.toList.drop 9))).filter isSatToken
  | _ => []

/-- Embeds the header scan of `analyze_sp3_file` (lines 540-609) on the lines
of an existing, decompressed, readable file (the missing-file and
still-compressed early exits act before any line is read and are outside
this model).  The first 200 lines are scanned; an empty file returns
`ok = false` (line 560-562), as does a scan that finds no satellite
(lines 596-602); otherwise the function returns `True`. -/
def analyze_sp3_lines (lines : List String) : SP3Analysis :=
  if lines.isEmpty then ⟨0, ∅, false⟩
  else
    let sats := (lines.take 200).flatMap lineSatellites
    let all_satellites : Finset String :=
      (sats.map (fun t => String.mk [t.1, t.2.1, t.2.2])).toFinset
    let constellations : Finset Char :=
      (sats.map (fun t => t.1.toUpper)).toFinset
    let total_satellites := all_satellites.card
    ⟨total_satellites, constellations, total_satellites != 0⟩

/-- Projection of a candidate to the data the interval-priority property
talks about: its analysis-center/product code and its interval tag (legacy
candidates carry no interval tag). -/
def candKey : Candidate → String × Option String
  | .modern code _ _ _ _ interval => (code, some interval)
  | .legacy center _ _ _ => (center, none)

/-- Position of an interval tag in the fixed priority `01S > 30S > 05M >
15M`. -/
def intervalRank (i : String) : ℕ :=
  if i = "01S" then 0
  else if i = "30S" then 1
  else if i = "05M" then 2
  else if i = "15M" then 3
  else 4

/-- Order constraint between two candidate keys: when both candidates carry
interval tags and belong to the same analysis-center group, the earlier one
must not have a lower-priority tag. -/
def keyLe (a b : String × Option String) : Prop :=
  match a.2, b.2 with
  | some ta, some tb => a.1 = b.1 → intervalRank ta ≤ intervalRank tb
  | _, _ => True

instance (a b : String × Option String) : Decidable (keyLe a b) := by
  unfold keyLe
  rcases a with ⟨a1, _ | ta⟩ <;> rcases b with ⟨b1, _ | tb⟩ <;>
    exact inferInstance

/-- The interval-priority claim for a candidate list: every earlier candidate
is `keyLe`-compatible with every later one. -/
def intervalPriorityRespected (L : List Candidate) : Prop :=
  (L.map candKey).Pairwise keyLe

instance (L : List Candidate) : Decidable (intervalPriorityRespected L) :=
  List.instDecidablePairwise (L.map candKey)

/-- Whether a candidate is a legacy `igu...` filename (the `'igu' in f` test
of sp3exe.py line 334, specialised to generated candidates, whose only names
containing `igu` are those with the `igu` center code). -/
def isIguCandidate : Candidate → Bool
  | .legacy center _ _ _ => center == "igu"
  | _ => false

/-! ## Theorems -/

/-- C5: for every calendar date, the GPS week/day conversion satisfies
`gps_week * 7 + day_of_week = days since the 1980-01-06 epoch` and
`0 ≤ day_of_week ≤ 6`. -/
theorem gps_week_day_invariant (d : Date) :
    (date_to_gps_week d).1 * 7 + (date_to_gps_week d).2 = daysSinceGpsEpoch d ∧
    0 ≤ (date_to_gps_week d).2 ∧ (date_to_gps_week d).2 ≤ 6 := by
  have hid := Int.fdiv_add_fmod (daysSinceGpsEpoch d) 7
  have hnn := Int.fmod_nonneg' (daysSinceGpsEpoch d) (b := 7) (by norm_num)
  have hlt := Int.fmod_lt_of_pos (daysSinceGpsEpoch d) (b := 7) (by norm_num)
  unfold date_to_gps_week gpsWeekOf dayOfWeekOf at *
  exact ⟨by linarith, hnn, by linarith⟩

/-- C3: the classifier computes `hours_elapsed = (now - target) / 3600` and
applies the fixed thresholds in descending order: `≥ 288 → final`,
`≥ 24 → rapid`, `≥ 3 → ultra_rapid`, otherwise no class and
`data_unavailable = true`. -/
theorem classify_thresholds (t n : ℚ) :
    (analyze_data_availability t n).hours_elapsed = (n - t) / 3600 ∧
    (288 ≤ (n - t) / 3600 →
      analyze_data_availability t n = ⟨(n - t) / 3600, some .final, false⟩) ∧
    (24 ≤ (n - t) / 3600 → (n - t) / 3600 < 288 →
      analyze_data_availability t n = ⟨(n - t) / 3600, some .rapid, false⟩) ∧
    (3 ≤ (n - t) / 3600 → (n - t) / 3600 < 24 →
      analyze_data_availability t n = ⟨(n - t) / 3600, some .ultra_rapid, false⟩) ∧
    ((n - t) / 3600 < 3 →
      analyze_data_availability t n = ⟨(n - t) / 3600, none, true⟩) := by
  unfold analyze_data_availability availability_thresholds
  dsimp only
  split_ifs with h1 h2 h3 <;>
    refine ⟨rfl, ?_, ?_, ?_, ?_⟩ <;> intros <;> first | rfl | (exfalso; linarith)

/-- Witness for `classify_thresholds` at a concrete input: a target 300 hours
before now is classified `final`. -/
theorem classify_thresholds_final_instance :
    (288 : ℚ) ≤ ((1080000 : ℚ) - 0) / 3600 ∧
    analyze_data_availability 0 1080000 =
      ⟨((1080000 : ℚ) - 0) / 3600, some .final, false⟩ :=
  ⟨by norm_num, (classify_thresholds 0 1080000).2.1 (by norm_num)⟩

/-- C4: classification is monotone in `now`: for a fixed target date,
a later `now` never yields a less available class (in the order
none < ultra_rapid < rapid < final) and never turns an available situation
back into `data_unavailable`. -/
theorem classify_monotone (t n1 n2 : ℚ) (h : n1 ≤ n2) :
    availabilityRank (analyze_data_availability t n1).optimal_product ≤
      availabilityRank (analyze_data_availability t n2).optimal_product ∧
    ((analyze_data_availability t n1).data_unavailable = false →
      (analyze_data_availability t n2).data_unavailable = false) := by
  have hh : (n1 - t) / 3600 ≤ (n2 - t) / 3600 :=
    (div_le_div_iff_of_pos_right (by norm_num)).mpr (by linarith)
  unfold analyze_data_availability availability_thresholds availabilityRank
  dsimp only
  split_ifs <;> simp <;> linarith

/-- Witness for `classify_monotone` at a concrete input: moving `now` from
5 hours after the target to 30 hours after it keeps the rank nondecreasing
(ultra_rapid to rapid) and keeps the data available. -/
theorem classify_monotone_instance :
    (18000 : ℚ) ≤ 108000 ∧
    availabilityRank (analyze_data_availability 0 18000).optimal_product ≤
      availabilityRank (analyze_data_availability 0 108000).optimal_product ∧
    ((analyze_data_availability 0 18000).data_unavailable = false →
      (analyze_data_availability 0 108000).data_unavailable = false) :=
  ⟨by norm_num, classify_monotone 0 18000 108000 (by norm_num)⟩

/-- The classifier reports unavailable exactly when it picked no class. -/
theorem analyze_unavailable_iff (t n : ℚ) :
    (analyze_data_availability t n).data_unavailable = true ↔
      (analyze_data_availability t n).optimal_product = none := by
  unfold analyze_data_availability
  dsimp only
  split_ifs <;> simp

/-- Whenever the classifier picks a class, the `data_unavailable` flag is
`false` (the source sets the flag only in the branch that picks no class). -/
theorem analyze_optimal_some_not_unavailable (t n : ℚ) (pt : ProductType)
    (h : (analyze_data_availability t n).optimal_product = some pt) :
    (analyze_data_availability t n).data_unavailable = false := by
  cases hu : (analyze_data_availability t n).data_unavailable
  · rfl
  · have := (analyze_unavailable_iff t n).mp hu
    rw [h] at this
    exact Option.noConfusion this

/-- `smart_download_sp3` computes the first success of `dl` along the degrade
chain whenever the classifier picked an optimal class. -/
theorem smart_download_eq_findSome (dl : ProductType → Option String)
    (t n : ℚ) (pt : ProductType)
    (h : (analyze_data_availability t n).optimal_product = some pt) :
    smart_download_sp3 dl t n = (fallback_chain pt).findSome? dl := by
  have hunav := analyze_optimal_some_not_unavailable t n pt h
  unfold smart_download_sp3
  dsimp only
  rw [hunav, h]
  simp only [Bool.false_eq_true, if_false]
  cases pt <;>
    cases hdlf : dl .final <;> cases hdlr : dl .rapid <;> cases hdlu : dl .ultra_rapid <;>
      simp [fallback_chain, List.findSome?_cons, List.findSome?_nil, hdlf, hdlr, hdlu]

/-- The attempted classes of `smart_download_sp3` start with the optimal
class whenever the classifier picked one. -/
theorem smart_download_attempts_head (dl : ProductType → Option String)
    (t n : ℚ) (pt : ProductType)
    (h : (analyze_data_availability t n).optimal_product = some pt) :
    (smart_download_attempts dl t n).head? = some pt := by
  have hunav := analyze_optimal_some_not_unavailable t n pt h
  unfold smart_download_attempts
  dsimp only
  rw [hunav, h]
  simp only [Bool.false_eq_true, if_false]
  cases pt <;>
    cases hdlf : dl .final <;> cases hdlr : dl .rapid <;> cases hdlu : dl .ultra_rapid <;>
      simp [hdlf, hdlr, hdlu]

/-- When the classifier reports unavailable, `smart_download_sp3` returns
`none` without calling `dl` on any class. -/
theorem smart_download_unavailable (dl : ProductType → Option String)
    (t n : ℚ) (h : (analyze_data_availability t n).data_unavailable = true) :
    smart_download_sp3 dl t n = none ∧ smart_download_attempts dl t n = [] := by
  unfold smart_download_sp3 smart_download_attempts
  dsimp only
  rw [h]
  simp

/-- The classifier at the concrete input used by several witnesses: a target
10 hours before now is classified ultra_rapid (ℚ arithmetic is evaluated by
`norm_num`, since `Rat` operations do not reduce under kernel evaluation). -/
theorem analyze_at_36000 :
    analyze_data_availability 0 36000 = ⟨10, some .ultra_rapid, false⟩ := by
  unfold analyze_data_availability availability_thresholds
  norm_num

/-- C1: smart download first classifies; on unavailable it fails without
attempting any class; otherwise it attempts the optimal class first and
degrades along the fixed chain (UltraRapid → Rapid → Final, Rapid → Final,
Final alone), returning the first success and failing overall exactly when
every class of the chain failed. -/
theorem smart_download_follows_degrade_chain (dl : ProductType → Option String)
    (t n : ℚ) :
    ((analyze_data_availability t n).data_unavailable = true →
      smart_download_sp3 dl t n = none ∧ smart_download_attempts dl t n = []) ∧
    (∀ pt, (analyze_data_availability t n).optimal_product = some pt →
      (smart_download_attempts dl t n).head? = some pt ∧
      smart_download_sp3 dl t n = (fallback_chain pt).findSome? dl ∧
      (smart_download_sp3 dl t n = none ↔ ∀ q ∈ fallback_chain pt, dl q = none)) := by
  refine ⟨smart_download_unavailable dl t n, fun pt h => ?_⟩
  refine ⟨smart_download_attempts_head dl t n pt h,
          smart_download_eq_findSome dl t n pt h, ?_⟩
  rw [smart_download_eq_findSome dl t n pt h]
  exact List.findSome?_eq_none_iff

/-- Witness for `smart_download_follows_degrade_chain`: a target 10 hours old
is classified ultra_rapid; with a download oracle that fails for ultra_rapid
and succeeds for rapid, the first chain success (the rapid result) is
returned. -/
theorem smart_download_follows_degrade_chain_instance :
    (analyze_data_availability 0 36000).optimal_product = some .ultra_rapid ∧
    ((smart_download_attempts
        (fun pt => match pt with | .rapid => some "r" | _ => none)
        0 36000).head? = some .ultra_rapid ∧
      smart_download_sp3
        (fun pt => match pt with | .rapid => some "r" | _ => none) 0 36000 =
        (fallback_chain .ultra_rapid).findSome?
          (fun pt => match pt with | .rapid => some "r" | _ => none) ∧
      (smart_download_sp3
          (fun pt => match pt with | .rapid => some "r" | _ => none) 0 36000 = none ↔
        ∀ q ∈ fallback_chain .ultra_rapid,
          (fun pt => match pt with | .rapid => some "r" | _ => none) q = none)) :=
  ⟨by rw [analyze_at_36000],
   (smart_download_follows_degrade_chain
      (fun pt => match pt with | .rapid => some "r" | _ => none) 0 36000).2
     .ultra_rapid (by rw [analyze_at_36000])⟩

/-- C2 counterexample: a 401 on the first (and only) ultra_rapid candidate
does not terminate the whole operation: the coordinator still degrades to
the rapid class, probes it and returns its success, so the operation neither
surfaces an auth failure nor stops after the 401. -/
theorem auth_not_terminal_counterexample :
    (analyze_data_availability 0 36000).optimal_product = some .ultra_rapid ∧
    (fun s => if s = "u1" then ProbeResult.authRequired
              else if s = "r1" then ProbeResult.ok (some "r1.sp3")
              else ProbeResult.notFound) "u1" = ProbeResult.authRequired ∧
    (download_product_type_run
        (fun s => if s = "u1" then ProbeResult.authRequired
                  else if s = "r1" then ProbeResult.ok (some "r1.sp3")
                  else ProbeResult.notFound) ["u1"]).2 = ["u1"] ∧
    smart_download_full
        (fun s => if s = "u1" then ProbeResult.authRequired
                  else if s = "r1" then ProbeResult.ok (some "r1.sp3")
                  else ProbeResult.notFound)
        (fun pt => match pt with
                   | .ultra_rapid => ["u1"] | .rapid => ["r1"] | .final => [])
        0 36000 = some "r1.sp3" ∧
    smart_download_full_attempts
        (fun s => if s = "u1" then ProbeResult.authRequired
                  else if s = "r1" then ProbeResult.ok (some "r1.sp3")
                  else ProbeResult.notFound)
        (fun pt => match pt with
                   | .ultra_rapid => ["u1"] | .rapid => ["r1"] | .final => [])
        0 36000 = [.ultra_rapid, .rapid] := by
  refine ⟨by rw [analyze_at_36000], by decide, by decide, ?_, ?_⟩
  · rw [show smart_download_full
        (fun s => if s = "u1" then ProbeResult.authRequired
                  else if s = "r1" then ProbeResult.ok (some "r1.sp3")
                  else ProbeResult.notFound)
        (fun pt => match pt with
                   | .ultra_rapid => ["u1"] | .rapid => ["r1"] | .final => [])
        0 36000 =
      (fallback_chain .ultra_rapid).findSome?
        (fun q => (download_product_type_run
          (fun s => if s = "u1" then ProbeResult.authRequired
                    else if s = "r1" then ProbeResult.ok (some "r1.sp3")
                    else ProbeResult.notFound)
          ((fun pt => match pt with
                      | .ultra_rapid => ["u1"] | .rapid => ["r1"]
                      | .final => []) q)).1) from by
      unfold smart_download_full
      exact smart_download_eq_findSome _ 0 36000 .ultra_rapid (by rw [analyze_at_36000])]
    decide
  · unfold smart_download_full_attempts smart_download_attempts
    rw [analyze_at_36000]
    decide

/-- A 401 is the end of the probe sweep of its class: the candidate that
returned 401 is the last one probed and the class attempt yields `none`. -/
theorem auth_last_probed (probe : String → ProbeResult) (files : List String)
    (f : String) (hf : probe f = .authRequired)
    (hmem : f ∈ (download_product_type_run probe files).2) :
    (∃ pre, (download_product_type_run probe files).2 = pre ++ [f]) ∧
    (download_product_type_run probe files).1 = none := by
  induction files with
  | nil => simp [download_product_type_run] at hmem
  | cons g rest ih =>
    unfold download_product_type_run at hmem ⊢
    cases hg : probe g <;> rw [hg] at hmem <;> dsimp only at hmem ⊢
    case ok r =>
      simp only [List.mem_singleton] at hmem
      subst hmem
      rw [hf] at hg
      exact ProbeResult.noConfusion hg
    case authRequired =>
      simp only [List.mem_singleton] at hmem
      subst hmem
      exact ⟨⟨[], rfl⟩, rfl⟩
    case notFound =>
      rcases List.mem_cons.mp hmem with hfg | hrest
      · subst hfg; rw [hf] at hg; exact ProbeResult.noConfusion hg
      · obtain ⟨⟨pre, hpre⟩, hres⟩ := ih hrest
        exact ⟨⟨g :: pre, by rw [hpre, List.cons_append]⟩, hres⟩
    case otherStatus c =>
      rcases List.mem_cons.mp hmem with hfg | hrest
      · subst hfg; rw [hf] at hg; exact ProbeResult.noConfusion hg
      · obtain ⟨⟨pre, hpre⟩, hres⟩ := ih hrest
        exact ⟨⟨g :: pre, by rw [hpre, List.cons_append]⟩, hres⟩
    case netError =>
      rcases List.mem_cons.mp hmem with hfg | hrest
      · subst hfg; rw [hf] at hg; exact ProbeResult.noConfusion hg
      · obtain ⟨⟨pre, hpre⟩, hres⟩ := ih hrest
        exact ⟨⟨g :: pre, by rw [hpre, List.cons_append]⟩, hres⟩

/-- C2 amended: a 401 aborts the remaining candidates of the class being
probed (the 401 candidate is the last one probed and the class attempt
returns failure), but it is not terminal for the whole operation: the
coordinator treats the class exactly like an exhausted candidate list and
continues along the degrade chain, so lower-latency classes are still
attempted after it. -/
theorem auth_aborts_class_sweep_only :
    (∀ (probe : String → ProbeResult) (files : List String) (f : String),
      probe f = .authRequired → f ∈ (download_product_type_run probe files).2 →
      (∃ pre, (download_product_type_run probe files).2 = pre ++ [f]) ∧
      (download_product_type_run probe files).1 = none) ∧
    (∀ (probe : String → ProbeResult) (cand : ProductType → List String)
      (t n : ℚ) (pt : ProductType),
      (analyze_data_availability t n).optimal_product = some pt →
      smart_download_full probe cand t n =
        (fallback_chain pt).findSome?
          (fun q => (download_product_type_run probe (cand q)).1)) := by
  refine ⟨fun probe files f hf hmem => auth_last_probed probe files f hf hmem,
          fun probe cand t n pt h => ?_⟩
  unfold smart_download_full
  exact smart_download_eq_findSome _ t n pt h

/-- Witness for `auth_aborts_class_sweep_only`: with two ultra_rapid
candidates of which the first returns 401, only that first candidate is
probed and the class fails; the degrade chain nevertheless continues and the
operation returns the rapid success. -/
theorem auth_aborts_class_sweep_only_instance :
    ((fun s => if s = "u1" then ProbeResult.authRequired
               else ProbeResult.ok (some "found")) "u1" = ProbeResult.authRequired ∧
      "u1" ∈ (download_product_type_run
        (fun s => if s = "u1" then ProbeResult.authRequired
                  else ProbeResult.ok (some "found")) ["u1", "u2"]).2 ∧
      (∃ pre, (download_product_type_run
        (fun s => if s = "u1" then ProbeResult.authRequired
                  else ProbeResult.ok (some "found")) ["u1", "u2"]).2 = pre ++ ["u1"]) ∧
      (download_product_type_run
        (fun s => if s = "u1" then ProbeResult.authRequired
                  else ProbeResult.ok (some "found")) ["u1", "u2"]).1 = none) ∧
    ((analyze_data_availability 0 36000).optimal_product = some .ultra_rapid ∧
      smart_download_full
        (fun s => if s = "u1" then ProbeResult.authRequired
                  else ProbeResult.ok (some "found"))
        (fun pt => match pt with
                   | .ultra_rapid => ["u1", "u2"] | .rapid => ["r1"] | .final => [])
        0 36000 =
        (fallback_chain .ultra_rapid).findSome?
          (fun q => (download_product_type_run
            (fun s => if s = "u1" then ProbeResult.authRequired
                      else ProbeResult.ok (some "found"))
            ((fun pt => match pt with
                        | .ultra_rapid => ["u1", "u2"] | .rapid => ["r1"]
                        | .final => []) q)).1)) :=
  ⟨⟨by decide, by decide,
    (auth_aborts_class_sweep_only.1 _ ["u1", "u2"] "u1" (by decide) (by decide)).1,
    (auth_aborts_class_sweep_only.1 _ ["u1", "u2"] "u1" (by decide) (by decide)).2⟩,
   ⟨by rw [analyze_at_36000],
    auth_aborts_class_sweep_only.2 _ _ 0 36000 .ultra_rapid (by rw [analyze_at_36000])⟩⟩

/-- C6 counterexample: for the modern-era ultra_rapid class the interval
priority is not respected within an analysis-center group across update
hours: on 2024-03-15 (today, 1h UTC) the generated list contains, within the
`IGS0OPSULT` group, a 15M candidate of hour 18 before a 01S candidate of
hour 12. -/
theorem interval_priority_counterexample :
    ¬ intervalPriorityRespected
        (generate_combined_sp3_filenames ⟨2024, 3, 15⟩ ⟨2024, 3, 15⟩ 1
          .ultra_rapid).filenames := by
  decide

/-- C6 amended: the interval priority 01S > 30S > 05M > 15M holds within
every analysis-center group for the final and rapid product classes (for
ultra_rapid it holds only within one update-hour block, see the
counterexample). -/
theorem interval_priority_final_rapid (td nd : Date) (nh : ℕ)
    (pt : ProductType) (h : pt = .final ∨ pt = .rapid) :
    intervalPriorityRespected
      (generate_combined_sp3_filenames td nd nh pt).filenames := by
  rcases h with h | h <;> subst h <;>
    unfold generate_combined_sp3_filenames intervalPriorityRespected <;>
    dsimp only <;>
    split_ifs <;>
    simp only [time_intervals, List.flatMap_cons, List.flatMap_nil,
      List.map_cons, List.map_nil, List.map_append, List.append_nil,
      candKey] <;>
    decide

/-- Witness for `interval_priority_final_rapid` at a concrete input. -/
theorem interval_priority_final_rapid_instance :
    (ProductType.final = ProductType.final ∨
      ProductType.final = ProductType.rapid) ∧
    intervalPriorityRespected
      (generate_combined_sp3_filenames ⟨2024, 3, 15⟩ ⟨2024, 3, 16⟩ 12
        .final).filenames :=
  ⟨Or.inl rfl,
   interval_priority_final_rapid ⟨2024, 3, 15⟩ ⟨2024, 3, 16⟩ 12 .final (Or.inl rfl)⟩

/-- C7 counterexample: in the modern era, when the target date is today and
the 3-hour-delay filter leaves no legacy hour (1h UTC), the substituted
previous-day `igu` candidates are the hours 21, 18, 15 and 12 — not exactly
the hours 21 and 18: an hour-15 candidate of the previous GPS-week/day pair
(2305, 4) is generated. -/
theorem ultra_legacy_fallback_hours_counterexample :
    (generate_combined_sp3_filenames ⟨2024, 3, 15⟩ ⟨2024, 3, 15⟩ 1
        .ultra_rapid).use_new_format = true ∧
    Candidate.legacy "igu" 2305 4 (some 15) ∈
      (generate_combined_sp3_filenames ⟨2024, 3, 15⟩ ⟨2024, 3, 15⟩ 1
        .ultra_rapid).filenames ∧
    (generate_combined_sp3_filenames ⟨2024, 3, 15⟩ ⟨2024, 3, 15⟩ 1
        .ultra_rapid).filenames.filter isIguCandidate =
      [21, 18, 15, 12].map (fun h => Candidate.legacy "igu" 2305 4 (some h)) := by
  refine ⟨by decide, by decide, by decide⟩

/-- C7 amended: in the modern era, when the target date is today and the
3-hour-delay filter leaves no legacy hour (`now_hour < 3`), the generator
substitutes exactly the hours 21, 18, 15, 12 of the previous day's
GPS-week/day-of-week pair as `igu` candidates. -/
theorem ultra_legacy_fallback_hours (d : Date) (nh : ℕ)
    (hw : 2238 ≤ gpsWeekOf d) (hnh : nh < 3) :
    (generate_combined_sp3_filenames d d nh .ultra_rapid).filenames.filter
        isIguCandidate =
      [21, 18, 15, 12].map (fun h =>
        Candidate.legacy "igu" (gpsWeekOf (predDate d))
          (dayOfWeekOf (predDate d)) (some h)) := by
  have ht : decide (d = d) = true := decide_eq_true rfl
  have hwt : decide (2238 ≤ gpsWeekOf d) = true := decide_eq_true hw
  have hf4 : [18, 12, 6, 0].filter (fun h => decide (h + 3 ≤ nh)) = [] :=
    List.filter_eq_nil_iff.mpr (by intro a ha; simp at ha ⊢; omega)
  have hf8 : [21, 18, 15, 12, 9, 6, 3, 0].filter
      (fun h => decide (h + 3 ≤ nh)) = [] :=
    List.filter_eq_nil_iff.mpr (by intro a ha; simp at ha ⊢; omega)
  unfold generate_combined_sp3_filenames
  dsimp only
  rw [ht, hwt]
  simp only [if_true, hf4, hf8]
  simp [time_intervals, isIguCandidate]

/-- Witness for `ultra_legacy_fallback_hours` at a concrete input. -/
theorem ultra_legacy_fallback_hours_instance :
    (2238 ≤ gpsWeekOf ⟨2024, 3, 15⟩) ∧ (1 < 3) ∧
    (generate_combined_sp3_filenames ⟨2024, 3, 15⟩ ⟨2024, 3, 15⟩ 1
        .ultra_rapid).filenames.filter isIguCandidate =
      [21, 18, 15, 12].map (fun h =>
        Candidate.legacy "igu" (gpsWeekOf (predDate ⟨2024, 3, 15⟩))
          (dayOfWeekOf (predDate ⟨2024, 3, 15⟩)) (some h)) :=
  ⟨by decide, by decide,
   ultra_legacy_fallback_hours ⟨2024, 3, 15⟩ 1 (by decide) (by decide)⟩

/-- C8 counterexample: on the header line of the claim, `+  32   G01G02R01R02`
(satellites starting at character offset 8), the scan does not report
4 satellites with constellations G and R and success — the fixed offset-9
slice shifts every token, no token validates, and the analysis fails. -/
theorem inspect_header_offset_counterexample :
    ¬ ((analyze_sp3_lines ["+  32   G01G02R01R02"]).total_satellites = 4 ∧
       (analyze_sp3_lines ["+  32   G01G02R01R02"]).constellations = {'G', 'R'} ∧
       (analyze_sp3_lines ["+  32   G01G02R01R02"]).ok = true) := by
  decide

/-- C8 amended: on a header line whose satellite tokens start at character
offset 9 (`+   32   G01G02R01R02`, the real SP3 layout), the scan reports
4 satellites, constellation set G, R, and success; on the claim's
offset-8 line it reports 0 satellites, no constellations, and failure. -/
theorem inspect_header_offset_corrected :
    analyze_sp3_lines ["+   32   G01G02R01R02"] = ⟨4, {'G', 'R'}, true⟩ ∧
    analyze_sp3_lines ["+  32   G01G02R01R02"] = ⟨0, ∅, false⟩ := by
  refine ⟨by decide, by decide⟩

/-- C9: whenever the external `uncompress` invocation raises, returns a
nonzero code, or leaves no decompressed file, `decompress_unix_z` does not
fail: it returns the path of the retained compressed artifact. -/
theorem unix_z_degraded_success (r : Option (ℤ × Bool)) (p : String)
    (h : r = none ∨ ∃ rc ex, r = some (rc, ex) ∧ ¬(rc = 0 ∧ ex = true)) :
    decompress_unix_z r p = p := by
  rcases h with h | ⟨rc, ex, h, hne⟩ <;> subst h
  · rfl
  · unfold decompress_unix_z
    dsimp only
    rw [if_neg hne]

/-- Witness for `unix_z_degraded_success`: a failed `uncompress` run (return
code 1) leaves the compressed `.Z` path as the result. -/
theorem unix_z_degraded_success_instance :
    (some ((1 : ℤ), true) = none ∨
      ∃ rc ex, (some ((1 : ℤ), true) : Option (ℤ × Bool)) = some (rc, ex) ∧
        ¬(rc = 0 ∧ ex = true)) ∧
    decompress_unix_z (some (1, true)) "igu23054_18.sp3.Z" = "igu23054_18.sp3.Z" :=
  ⟨Or.inr ⟨1, true, rfl, by decide⟩,
   unix_z_degraded_success _ _ (Or.inr ⟨1, true, rfl, by decide⟩)⟩

/-- C10: when gzip decompression raises, `decompress_file` does not fail:
it returns the path of the still-compressed artifact, which has not been
deleted (the unlink happens only after a successful decompression). -/
theorem gzip_failure_returns_compressed_path (auto_cleanup : Option Bool)
    (p : String) :
    decompress_file false auto_cleanup p = (p, false) := rfl

end SP3
